import Mathlib

/-!
Verification of the `youndoldman/tfsnippet` example scripts and the
weight-normalization layer helper.

The repository consists of three Python files:

* `tfsnippet/layers/normalization/weight_norm_.py` — the `weight_norm` helper;
* `tfsnippet/examples/auto_encoders/gm_vae.py` — the Gaussian-mixture VAE
  script, containing `gaussian_mixture_prior` and a `main` entry point;
* `tfsnippet/examples/auto_encoders/planar_nf.py` — the planar-flow VAE
  script with its own `main` entry point.

The functions build TensorFlow graphs.  We embed graph construction
shallowly: a symbolic tensor-expression type `TExpr` records the operations
a function composes, and graph-level side effects (variable creation,
variable-scope entry, op registration) are threaded explicitly as a trace
of `Effect`s.  A Python `raise ValueError(msg)` becomes `Except.error msg`;
since a raise does not undo effects already applied to the default graph,
a function returns the pair of its `Except` result and the final trace.
-/

/-- TensorFlow dtypes used by the repository (`kernel.dtype.base_dtype` in
`weight_norm`, `tf.float32`/`tf.int32` in the scripts). -/
inductive DType where
  | float32
  | float64
  | int32
  deriving DecidableEq, Repr

/-- Symbolic tensor expressions: one constructor per TensorFlow operation the
embedded functions apply.  `const` covers Python float literals (as exact
rationals), `add` is `+`, `softplus` is `tf.nn.softplus`, `zerosLike` is
`tf.zeros_like`, `l2Normalize` is `tf.nn.l2_normalize` over the given
reduction axes with the given epsilon, `mul` is `*`, `var` is the tensor
returned by `tf.get_variable`, and `embLookup` is `tf.nn.embedding_lookup`. -/
inductive TExpr where
  | input (name : String)
  | var (name : String) (shape : List Nat)
  | embLookup (params ids : TExpr)
  | zerosLike (t : TExpr)
  | softplus (t : TExpr)
  | add (a b : TExpr)
  | const (c : ℚ)
  | l2Normalize (t : TExpr) (axes : List Nat) (epsilon : ℚ)
  | mul (a b : TExpr)
  deriving DecidableEq, Repr

/-- A tensor as statically known to the graph builder: its symbolic
expression, its static shape (`int_shape` in the source, assumed fully
defined) and its base dtype. -/
structure Tensor where
  expr : TExpr
  shape : List Nat
  dtype : DType
  deriving DecidableEq, Repr

/-- Side effects on the default TensorFlow graph: creating a variable
(`tf.get_variable`), entering a variable scope (`tf.variable_scope`), or
registering a graph op such as an embedding lookup. -/
inductive Effect where
  | createVar (name : String) (shape : List Nat) (dtype : DType)
      (trainable : Bool)
  | enterScope (name : String)
  | addOp (kind : String)
  deriving DecidableEq, Repr

/-- The graph-construction state: the ordered trace of effects applied to
the default graph so far. -/
abbrev GraphState := List Effect

/-- `tf.get_variable(name, shape=shape, dtype=dtype, trainable=trainable)`:
returns the variable's tensor expression and appends a creation effect. -/
def getVariable (name : String) (shape : List Nat) (dtype : DType)
    (trainable : Bool) (s : GraphState) : TExpr × GraphState :=
  (TExpr.var name shape, s ++ [Effect.createVar name shape dtype trainable])

/-- `tf.nn.embedding_lookup(params, ids)`: returns the lookup expression and
records that an op was added to the graph. -/
def embeddingLookup (params ids : TExpr) (s : GraphState) :
    TExpr × GraphState :=
  (TExpr.embLookup params ids, s ++ [Effect.addOp "embedding_lookup"])

/-- The argument triple handed to `sn.Normal(mean=..., std=..., logstd=...)`
by `gaussian_mixture_prior`; `none` stands for Python `None`. -/
structure NormalD where
  mean : TExpr
  std : Option TExpr
  logstd : Option TExpr
  deriving DecidableEq, Repr

/-- The supported values of the `p_z_given_y_std` configuration option, as
listed in the comment next to `ExpConfig.p_z_given_y_std` in `gm_vae.py`. -/
def supported_p_z_given_y_std : List String :=
  ["one", "one_plus_softplus_std", "softplus_logstd", "unbound_logstd"]

/-- Shallow embedding of `gaussian_mixture_prior(y, z_dim, n_clusters)` from
`gm_vae.py` (lines 51-85).  The global config value `config.p_z_given_y_std`
is passed explicitly.  The body: create the `z_prior_mean` variable, look up
`z_mean`; if the mode is `'one'` return `Normal` with zero logstd; otherwise
create `z_prior_std_or_logstd`, look it up, and dispatch on the remaining
three modes, raising `ValueError` on anything else. -/
def gaussian_mixture_prior (p_z_given_y_std : String) (y : TExpr)
    (z_dim n_clusters : Nat) (s : GraphState) :
    Except String NormalD × GraphState :=
  let pm := getVariable "z_prior_mean" [n_clusters, z_dim] DType.float32
    true s
  let zm := embeddingLookup pm.1 y pm.2
  let z_mean := zm.1
  if p_z_given_y_std = "one" then
    (Except.ok ⟨z_mean, none, some (TExpr.zerosLike z_mean)⟩, zm.2)
  else
    let ps := getVariable "z_prior_std_or_logstd" [n_clusters, z_dim]
      DType.float32 true zm.2
    let zs := embeddingLookup ps.1 y ps.2
    let z_std_or_logstd := zs.1
    if p_z_given_y_std = "one_plus_softplus_std" then
      (Except.ok ⟨z_mean,
        some (TExpr.add (TExpr.const 1) (TExpr.softplus z_std_or_logstd)),
        none⟩, zs.2)
    else if p_z_given_y_std = "softplus_logstd" then
      (Except.ok ⟨z_mean, none, some (TExpr.softplus z_std_or_logstd)⟩, zs.2)
    else if p_z_given_y_std = "unbound_logstd" then
      (Except.ok ⟨z_mean, none, some z_std_or_logstd⟩, zs.2)
    else
      (Except.error
        ("Unexpected value for config `p_z_given_y_std`: " ++ p_z_given_y_std),
       zs.2)

/-- Modelled from the spec: `tfsnippet.utils.validate_int_or_int_tuple_arg`
is imported by `weight_norm_.py` but its source is not part of this
repository snapshot.  It accepts either a single int or a tuple of ints for
the `axis` argument and yields the tuple of ints. -/
def validate_int_or_int_tuple_arg (value : Int ⊕ List Int) : List Int :=
  match value with
  | Sum.inl i => [i]
  | Sum.inr l => l

/-- Modelled from the spec: `tfsnippet.utils.resolve_negative_axis` is
imported by `weight_norm_.py` but its source is not part of this repository
snapshot.  Each negative axis entry is resolved against the tensor rank
(`a + rank`); non-negative entries pass through. -/
def resolve_negative_axis (rank : Nat) (axis : List Int) : List Int :=
  axis.map (fun a => if a < 0 then a + (rank : Int) else a)

/-- Parameter specification built by `weight_norm` from the kernel's static
shape and base dtype (`ParamSpec(kernel_shape, dtype=dtype)`). -/
structure ParamSpec where
  shape : List Nat
  dtype : DType
  deriving DecidableEq, Repr

/-- Modelled from the spec: `tfsnippet.utils.ParamSpec.validate` is imported
by `weight_norm_.py` but its source is not part of this repository snapshot.
A tensor whose static shape or dtype does not match the specification is
rejected with a `ValueError`. -/
def ParamSpec.validate (spec : ParamSpec) (t : Tensor) :
    Except String Tensor :=
  if t.shape = spec.shape ∧ t.dtype = spec.dtype then Except.ok t
  else Except.error "tensor does not match the parameter specification"

/-- The `ValueError` message raised by `weight_norm` when `use_scale` is
false yet `scale` is given (line 51 of `weight_norm_.py`). -/
def weight_norm_scale_error : String :=
  "`use_scale` is False but `scale` is specified."

/-- Shallow embedding of `weight_norm(kernel, axis, use_scale, scale,
scale_initializer, scale_regularizer, scale_constraint, trainable, epsilon,
name, scope)` from `weight_norm_.py` (lines 15-87).  The initializer /
regularizer / constraint arguments only parameterize the created `scale`
variable and never influence control flow or the returned expression, so
they are not threaded into the effect trace.  Steps, in source order:
(1) reject `not use_scale and scale is not None`; (2) take the kernel's
static shape and base dtype and build a `ParamSpec`; (3) validate `scale`
against it when given; (4) resolve the `axis` argument and compute the
complementary reduction axes; (5) enter the variable scope; (6) l2-normalize
the kernel over the reduction axes; (7) when `use_scale`, multiply by the
given or newly created `scale` variable. -/
def weight_norm (kernel : Tensor) (axis : Int ⊕ List Int)
    (use_scale : Bool) (scale : Option Tensor) (trainable : Bool)
    (epsilon : ℚ) (name : Option String) (s : GraphState) :
    Except String Tensor × GraphState :=
  if !use_scale && scale.isSome then
    (Except.error weight_norm_scale_error, s)
  else
    let kernel_shape := kernel.shape
    let dtype := kernel.dtype
    let var_spec : ParamSpec := ⟨kernel_shape, dtype⟩
    let scaleValidated : Except String (Option Tensor) :=
      match scale with
      | some sc => (var_spec.validate sc).map some
      | none => Except.ok none
    match scaleValidated with
    | Except.error e => (Except.error e, s)
    | Except.ok scale1 =>
      let axis1 := resolve_negative_axis kernel_shape.length
        (validate_int_or_int_tuple_arg axis)
      let reduce_axis := (List.range kernel_shape.length).filter
        (fun a => decide (¬ (Int.ofNat a ∈ axis1)))
      let s1 := s ++ [Effect.enterScope (name.getD "weight_norm")]
      let kernel1 : Tensor :=
        ⟨TExpr.l2Normalize kernel.expr reduce_axis epsilon,
         kernel_shape, dtype⟩
      if use_scale then
        match scale1 with
        | some sc =>
          (Except.ok ⟨TExpr.mul kernel1.expr sc.expr, kernel_shape, dtype⟩,
           s1)
        | none =>
          let v := getVariable "scale" kernel_shape dtype trainable s1
          (Except.ok ⟨TExpr.mul kernel1.expr v.1, kernel_shape, dtype⟩,
           v.2)
      else
        (Except.ok kernel1, s1)

/-- The attribute names of `ExpConfig` in `gm_vae.py` (lines 24-48), in
source order. -/
def gm_vae_config_fields : List String :=
  ["x_dim", "z_dim", "n_clusters", "l2_reg", "p_z_given_y_std",
   "mean_field_assumption_for_q", "write_summary", "max_epoch", "max_step",
   "batch_size", "train_n_samples", "initial_lr", "lr_anneal_factor",
   "lr_anneal_epoch_freq", "lr_anneal_step_freq", "test_n_samples",
   "test_batch_size"]

/-- The attribute names of `ExpConfig` in `planar_nf.py` (lines 19-38), in
source order. -/
def planar_nf_config_fields : List String :=
  ["z_dim", "x_dim", "nf_layers", "write_summary", "max_epoch", "max_step",
   "batch_size", "l2_reg", "initial_lr", "lr_anneal_factor",
   "lr_anneal_epoch_freq", "lr_anneal_step_freq", "test_n_z",
   "test_batch_size"]

/-- A command-line entry point: the names a caller may set, and whether the
result-directory option is mandatory. -/
structure CliEntryPoint where
  options : List String
  result_dir_required : Bool
  deriving DecidableEq, Repr

/-- Modelled from the spec: the `config_options(ExpConfig)` decorator comes
from `tfsnippet.examples.utils`, whose source is not part of this repository
snapshot; per the spec it attaches one configuration-override option per
attribute of the config class.  Together with the explicit
`\x40click.option('--result-dir', ..., required=False)` this yields the
entry point's accepted names. -/
def cli_entry_point (config_fields : List String) : CliEntryPoint :=
  ⟨"result-dir" :: config_fields, false⟩

/-- The command-line entry point of `gm_vae.py` (`main`, lines 187-191). -/
def gm_vae_cli : CliEntryPoint := cli_entry_point gm_vae_config_fields

/-- The command-line entry point of `planar_nf.py` (`main`, lines 88-92). -/
def planar_nf_cli : CliEntryPoint := cli_entry_point planar_nf_config_fields

/-- The externally observable input/output structure of a script's `main`:
which dataset loader it calls, which result sub-directories it creates, the
file name of the per-epoch image grid, whether it pushes scalar metrics to
the results store, and the `summary_dir` value handed to `TrainLoop` as a
function of the `write_summary` config flag. -/
structure ScriptIO where
  dataset_loader : String
  dirs_created : List String
  plot_file : Nat → String
  updates_metrics : Bool
  summary_dir : Bool → Option String

/-- I/O structure of `gm_vae.py`'s `main`: `sn.datasets.load_mnist()`
(line 303), `results.make_dirs('plotting')` / `make_dirs('train_summary')`
(lines 197-198), `'plotting/\x7b\x7d.png'.format(loop.epoch)` (line 268),
`results.update_metrics` (lines 300, 340), and
`summary_dir=(results.system_path('train_summary') if config.write_summary
else None)` (lines 317-318), with `system_path` — a path resolver owned by
the external results collaborator — kept symbolic as the directory name it
is applied to. -/
def gm_vae_io : ScriptIO :=
  ⟨"mnist", ["plotting", "train_summary"],
   fun epoch => "plotting/" ++ toString epoch ++ ".png",
   true,
   fun write_summary =>
     if write_summary then some "train_summary" else none⟩

/-- I/O structure of `planar_nf.py`'s `main`: `sn.datasets.load_mnist()`
(line 158), `make_dirs` calls (lines 98-99), the plot file name (line 153),
`results.update_metrics` (line 194), and the `summary_dir` conditional
(lines 171-172). -/
def planar_nf_io : ScriptIO :=
  ⟨"mnist", ["plotting", "train_summary"],
   fun epoch => "plotting/" ++ toString epoch ++ ".png",
   true,
   fun write_summary =>
     if write_summary then some "train_summary" else none⟩

/-- The framework facilities a script's `main` requests, in source order.
`threadedFlow n` is `train_flow.threaded(n)` (a thread-pool-backed data
flow), `createSession` is `sn.utils.create_session().as_default()` (the
managed execution session), and `rawThread` would be a thread or other
concurrency primitive created by the script itself — present in the model
exactly so that its absence from both scripts is expressible. -/
inductive FrameworkCall where
  | loadMnist
  | createSession
  | threadedFlow (pool_size : Nat)
  | trainLoop
  | trainerRun
  | rawThread
  deriving DecidableEq, Repr

/-- Whether a framework call requests concurrent machinery. -/
def FrameworkCall.isConcurrency : FrameworkCall → Bool
  | .createSession => true
  | .threadedFlow _ => true
  | .rawThread => true
  | _ => false

/-- The framework calls of `gm_vae.py`'s `main` (lines 303-350):
`load_mnist`, then the `with create_session() ... train_flow.threaded(5)`
header, the `TrainLoop` context and `trainer.run()`. -/
def gm_vae_main_calls : List FrameworkCall :=
  [FrameworkCall.loadMnist, FrameworkCall.createSession,
   FrameworkCall.threadedFlow 5, FrameworkCall.trainLoop,
   FrameworkCall.trainerRun]

/-- The framework calls of `planar_nf.py`'s `main` (lines 158-199). -/
def planar_nf_main_calls : List FrameworkCall :=
  [FrameworkCall.loadMnist, FrameworkCall.createSession,
   FrameworkCall.threadedFlow 5, FrameworkCall.trainLoop,
   FrameworkCall.trainerRun]

/-- Helper: evaluating `gaussian_mixture_prior` at mode `'one'`. -/
theorem gmp_one_eq (y : TExpr) (zd nc : Nat) (s : GraphState) :
    gaussian_mixture_prior "one" y zd nc s =
      (Except.ok
        ⟨TExpr.embLookup (TExpr.var "z_prior_mean" [nc, zd]) y, none,
         some (TExpr.zerosLike
           (TExpr.embLookup (TExpr.var "z_prior_mean" [nc, zd]) y))⟩,
       (s ++ [Effect.createVar "z_prior_mean" [nc, zd] DType.float32 true])
         ++ [Effect.addOp "embedding_lookup"]) := by
  rfl

/-- Helper: evaluating `gaussian_mixture_prior` at mode
`'one_plus_softplus_std'`. -/
theorem gmp_opss_eq (y : TExpr) (zd nc : Nat) (s : GraphState) :
    gaussian_mixture_prior "one_plus_softplus_std" y zd nc s =
      (Except.ok
        ⟨TExpr.embLookup (TExpr.var "z_prior_mean" [nc, zd]) y,
         some (TExpr.add (TExpr.const 1) (TExpr.softplus
           (TExpr.embLookup (TExpr.var "z_prior_std_or_logstd" [nc, zd]) y))),
         none⟩,
       (((s ++ [Effect.createVar "z_prior_mean" [nc, zd] DType.float32 true])
         ++ [Effect.addOp "embedding_lookup"])
         ++ [Effect.createVar "z_prior_std_or_logstd" [nc, zd]
               DType.float32 true])
         ++ [Effect.addOp "embedding_lookup"]) := by
  rfl

/-- Helper: evaluating `gaussian_mixture_prior` at mode `'softplus_logstd'`. -/
theorem gmp_spl_eq (y : TExpr) (zd nc : Nat) (s : GraphState) :
    gaussian_mixture_prior "softplus_logstd" y zd nc s =
      (Except.ok
        ⟨TExpr.embLookup (TExpr.var "z_prior_mean" [nc, zd]) y, none,
         some (TExpr.softplus
           (TExpr.embLookup (TExpr.var "z_prior_std_or_logstd" [nc, zd]) y))⟩,
       (((s ++ [Effect.createVar "z_prior_mean" [nc, zd] DType.float32 true])
         ++ [Effect.addOp "embedding_lookup"])
         ++ [Effect.createVar "z_prior_std_or_logstd" [nc, zd]
               DType.float32 true])
         ++ [Effect.addOp "embedding_lookup"]) := by
  rfl

/-- Helper: evaluating `gaussian_mixture_prior` at mode `'unbound_logstd'`. -/
theorem gmp_ul_eq (y : TExpr) (zd nc : Nat) (s : GraphState) :
    gaussian_mixture_prior "unbound_logstd" y zd nc s =
      (Except.ok
        ⟨TExpr.embLookup (TExpr.var "z_prior_mean" [nc, zd]) y, none,
         some (TExpr.embLookup (TExpr.var "z_prior_std_or_logstd" [nc, zd]) y)⟩,
       (((s ++ [Effect.createVar "z_prior_mean" [nc, zd] DType.float32 true])
         ++ [Effect.addOp "embedding_lookup"])
         ++ [Effect.createVar "z_prior_std_or_logstd" [nc, zd]
               DType.float32 true])
         ++ [Effect.addOp "embedding_lookup"]) := by
  rfl

/-- Helper: membership in the supported mode list, spelled out. -/
theorem mem_supported_iff (cfg : String) :
    cfg ∈ supported_p_z_given_y_std ↔
      cfg = "one" ∨ cfg = "one_plus_softplus_std" ∨
      cfg = "softplus_logstd" ∨ cfg = "unbound_logstd" := by
  simp [supported_p_z_given_y_std]

/-- Helper: evaluating `gaussian_mixture_prior` at an unsupported mode: the
`ValueError` is raised only after both prior variables have been created and
both embedding lookups performed. -/
theorem gmp_unsupported_eq (cfg : String)
    (h : cfg ∉ supported_p_z_given_y_std)
    (y : TExpr) (zd nc : Nat) (s : GraphState) :
    gaussian_mixture_prior cfg y zd nc s =
      (Except.error
        ("Unexpected value for config `p_z_given_y_std`: " ++ cfg),
       (((s ++ [Effect.createVar "z_prior_mean" [nc, zd] DType.float32 true])
         ++ [Effect.addOp "embedding_lookup"])
         ++ [Effect.createVar "z_prior_std_or_logstd" [nc, zd]
               DType.float32 true])
         ++ [Effect.addOp "embedding_lookup"]) := by
  rw [mem_supported_iff] at h
  push_neg at h
  obtain ⟨h1, h2, h3, h4⟩ := h
  simp [gaussian_mixture_prior, getVariable, embeddingLookup, h1, h2, h3, h4]

/-- C1 counterexample: at the concrete unsupported mode `"bogus"`,
`gaussian_mixture_prior` does raise a `ValueError`, but the effect trace at
the point of failure is not empty — the claim that no variable creation or
embedding lookup happens before the failure is false: `z_prior_mean` and
`z_prior_std_or_logstd` have both been created and looked up. -/
theorem gm_prior_invalid_mode_creates_vars_first :
    (∃ msg,
      (gaussian_mixture_prior "bogus" (TExpr.input "y") 16 16 []).1 =
        Except.error msg) ∧
    (gaussian_mixture_prior "bogus" (TExpr.input "y") 16 16 []).2 ≠ [] ∧
    Effect.createVar "z_prior_mean" [16, 16] DType.float32 true ∈
      (gaussian_mixture_prior "bogus" (TExpr.input "y") 16 16 []).2 := by
  refine ⟨⟨"Unexpected value for config `p_z_given_y_std`: bogus", ?_⟩, ?_, ?_⟩
  · rfl
  · decide
  · decide

/-- C1 (amended): for every mode outside the supported set,
`gaussian_mixture_prior` raises a `ValueError` naming the offending value,
but only after creating the `z_prior_mean` and `z_prior_std_or_logstd`
variables and performing both embedding lookups; no `Normal` distribution is
returned. -/
theorem gm_prior_invalid_mode_raises_after_creation (cfg : String)
    (h : cfg ∉ supported_p_z_given_y_std)
    (y : TExpr) (zd nc : Nat) (s : GraphState) :
    gaussian_mixture_prior cfg y zd nc s =
      (Except.error
        ("Unexpected value for config `p_z_given_y_std`: " ++ cfg),
       s ++ [Effect.createVar "z_prior_mean" [nc, zd] DType.float32 true,
             Effect.addOp "embedding_lookup",
             Effect.createVar "z_prior_std_or_logstd" [nc, zd]
               DType.float32 true,
             Effect.addOp "embedding_lookup"]) := by
  rw [gmp_unsupported_eq cfg h y zd nc s]
  simp

/-- C1 witness: the amended claim instantiated at the concrete mode
`"bogus"` with a 16-cluster, 16-dimensional prior and an empty trace. -/
theorem gm_prior_invalid_mode_raises_after_creation_inst :
    ("bogus" ∉ supported_p_z_given_y_std) ∧
    gaussian_mixture_prior "bogus" (TExpr.input "y") 16 16 [] =
      (Except.error "Unexpected value for config `p_z_given_y_std`: bogus",
       [Effect.createVar "z_prior_mean" [16, 16] DType.float32 true,
        Effect.addOp "embedding_lookup",
        Effect.createVar "z_prior_std_or_logstd" [16, 16] DType.float32 true,
        Effect.addOp "embedding_lookup"]) := by
  refine ⟨by decide, ?_⟩
  have h := gm_prior_invalid_mode_raises_after_creation "bogus" (by decide)
    (TExpr.input "y") 16 16 []
  simpa using h

/-- C2: calling `weight_norm` with `use_scale = False` and a non-`None`
`scale` raises the `ValueError` as the very first action: no variable is
created, no scope is entered, the kernel is not touched, and the graph
state is returned unchanged. -/
theorem weight_norm_use_scale_conflict_checked_first
    (kernel : Tensor) (axis : Int ⊕ List Int) (sc : Tensor)
    (trainable : Bool) (epsilon : ℚ) (name : Option String)
    (s : GraphState) :
    weight_norm kernel axis false (some sc) trainable epsilon name s =
      (Except.error weight_norm_scale_error, s) := by
  rfl

/-- C3: `gaussian_mixture_prior` raises a `ValueError` if and only if the
configured mode lies outside the supported set; for every supported mode it
returns a `Normal` distribution argument triple without raising. -/
theorem gm_prior_raises_iff_unsupported
    (cfg : String) (y : TExpr) (zd nc : Nat) (s : GraphState) :
    ((∃ msg, (gaussian_mixture_prior cfg y zd nc s).1 = Except.error msg) ↔
      cfg ∉ supported_p_z_given_y_std) ∧
    (cfg ∈ supported_p_z_given_y_std →
      ∃ d, (gaussian_mixture_prior cfg y zd nc s).1 = Except.ok d) := by
  by_cases h : cfg ∈ supported_p_z_given_y_std
  · have hok : ∃ d,
        (gaussian_mixture_prior cfg y zd nc s).1 = Except.ok d := by
      rw [mem_supported_iff] at h
      rcases h with h | h | h | h <;> subst h
      · exact ⟨_, by rw [gmp_one_eq]⟩
      · exact ⟨_, by rw [gmp_opss_eq]⟩
      · exact ⟨_, by rw [gmp_spl_eq]⟩
      · exact ⟨_, by rw [gmp_ul_eq]⟩
    obtain ⟨d, hd⟩ := hok
    refine ⟨⟨fun ⟨msg, hm⟩ => ?_, fun hn => absurd h hn⟩, fun _ => ⟨d, hd⟩⟩
    rw [hd] at hm
    exact Except.noConfusion hm
  · refine ⟨⟨fun _ => h, fun _ => ?_⟩, fun hmem => absurd hmem h⟩
    exact ⟨_, by rw [gmp_unsupported_eq cfg h y zd nc s]⟩

/-- C3 witness: at the supported mode `"one"` the function returns a
`Normal` triple, and at the unsupported mode `"bogus"` it raises. -/
theorem gm_prior_raises_iff_unsupported_inst :
    ("one" ∈ supported_p_z_given_y_std) ∧
    (∃ d, (gaussian_mixture_prior "one" (TExpr.input "y") 16 16 []).1 =
      Except.ok d) := by
  refine ⟨by decide, ?_⟩
  exact (gm_prior_raises_iff_unsupported "one" (TExpr.input "y") 16 16
    []).2 (by decide)

/-- C4: both validation failures are immediate synchronous errors with
descriptive messages: the `weight_norm` error path yields its fixed message
on the spot, that message names both `use_scale` and `scale`; the
`gaussian_mixture_prior` error message embeds the offending configuration
value itself after a non-empty descriptive prelude; neither error path
yields anything but the error (no retry or recovery). -/
theorem validation_error_messages_descriptive :
    (∀ (kernel : Tensor) (axis : Int ⊕ List Int) (sc : Tensor)
       (trainable : Bool) (epsilon : ℚ) (name : Option String)
       (s : GraphState),
      (weight_norm kernel axis false (some sc) trainable epsilon name s).1 =
        Except.error weight_norm_scale_error) ∧
    (∃ a b c, weight_norm_scale_error = a ++ "use_scale" ++ b ++ "scale" ++ c) ∧
    (∀ (cfg : String) (y : TExpr) (zd nc : Nat) (s : GraphState),
      cfg ∉ supported_p_z_given_y_std →
      (gaussian_mixture_prior cfg y zd nc s).1 =
        Except.error
          ("Unexpected value for config `p_z_given_y_std`: " ++ cfg)) := by
  refine ⟨fun kernel axis sc trainable epsilon name s => rfl, ?_, ?_⟩
  · exact ⟨"`", "` is False but `", "` is specified.", by decide⟩
  · intro cfg y zd nc s h
    rw [gmp_unsupported_eq cfg h y zd nc s]

/-- C4 witness: the `gaussian_mixture_prior` part of the message claim
instantiated at the unsupported mode `"bogus"`. -/
theorem validation_error_messages_descriptive_inst :
    ("bogus" ∉ supported_p_z_given_y_std) ∧
    (gaussian_mixture_prior "bogus" (TExpr.input "y") 16 16 []).1 =
      Except.error
        ("Unexpected value for config `p_z_given_y_std`: " ++ "bogus") := by
  refine ⟨by decide, ?_⟩
  exact validation_error_messages_descriptive.2.2 "bogus" (TExpr.input "y")
    16 16 [] (by decide)

/-- C5: each script's command-line entry point takes an optional
`--result-dir` path and per-attribute configuration overrides, covering
`initial_lr`, `batch_size`, `max_epoch` and `z_dim` in both scripts,
`n_clusters` in the Gaussian-mixture script and `nf_layers` in the
planar-flow script. -/
theorem cli_entry_points_expose_overrides :
    gm_vae_cli.result_dir_required = false ∧
    planar_nf_cli.result_dir_required = false ∧
    "result-dir" ∈ gm_vae_cli.options ∧
    "result-dir" ∈ planar_nf_cli.options ∧
    "initial_lr" ∈ gm_vae_cli.options ∧
    "initial_lr" ∈ planar_nf_cli.options ∧
    "batch_size" ∈ gm_vae_cli.options ∧
    "batch_size" ∈ planar_nf_cli.options ∧
    "max_epoch" ∈ gm_vae_cli.options ∧
    "max_epoch" ∈ planar_nf_cli.options ∧
    "z_dim" ∈ gm_vae_cli.options ∧
    "z_dim" ∈ planar_nf_cli.options ∧
    "n_clusters" ∈ gm_vae_cli.options ∧
    "nf_layers" ∈ planar_nf_cli.options := by
  decide

/-- C6: both scripts load the MNIST dataset, create the `plotting` result
directory and write the per-epoch image grid as `plotting/<epoch>.png`,
push scalar metrics into the results store, and hand `TrainLoop` a summary
directory exactly when `write_summary` is enabled (`None` otherwise). -/
theorem scripts_io_structure :
    gm_vae_io.dataset_loader = "mnist" ∧
    planar_nf_io.dataset_loader = "mnist" ∧
    "plotting" ∈ gm_vae_io.dirs_created ∧
    "plotting" ∈ planar_nf_io.dirs_created ∧
    (∀ epoch : Nat,
      gm_vae_io.plot_file epoch = "plotting/" ++ toString epoch ++ ".png") ∧
    (∀ epoch : Nat,
      planar_nf_io.plot_file epoch = "plotting/" ++ toString epoch ++ ".png") ∧
    gm_vae_io.updates_metrics = true ∧
    planar_nf_io.updates_metrics = true ∧
    gm_vae_io.summary_dir false = none ∧
    gm_vae_io.summary_dir true = some "train_summary" ∧
    planar_nf_io.summary_dir false = none ∧
    planar_nf_io.summary_dir true = some "train_summary" := by
  exact ⟨rfl, rfl, by decide, by decide, fun _ => rfl, fun _ => rfl,
    rfl, rfl, rfl, rfl, rfl, rfl⟩

/-- C7: the only concurrent machinery either script requests is the
thread-pool-backed data flow `threaded(5)` and the managed session from the
framework; neither script creates a thread or any other concurrency
primitive of its own. -/
theorem scripts_concurrency_requests :
    gm_vae_main_calls.filter FrameworkCall.isConcurrency =
      [FrameworkCall.createSession, FrameworkCall.threadedFlow 5] ∧
    planar_nf_main_calls.filter FrameworkCall.isConcurrency =
      [FrameworkCall.createSession, FrameworkCall.threadedFlow 5] ∧
    FrameworkCall.rawThread ∉ gm_vae_main_calls ∧
    FrameworkCall.rawThread ∉ planar_nf_main_calls := by
  decide

/-- C8: with `use_scale = False` and no `scale`, `weight_norm` returns
exactly the kernel l2-normalized over the complement of the (negative-axis
resolved) `axis` argument — no scaling multiplication appears in the result
and the only graph effect is entering the variable scope. -/
theorem weight_norm_no_scale_returns_l2_normalized_kernel
    (kernel : Tensor) (axis : Int ⊕ List Int) (trainable : Bool)
    (epsilon : ℚ) (name : Option String) (s : GraphState) :
    weight_norm kernel axis false none trainable epsilon name s =
      (Except.ok
        ⟨TExpr.l2Normalize kernel.expr
          ((List.range kernel.shape.length).filter
            (fun a => decide (¬ (Int.ofNat a ∈
              resolve_negative_axis kernel.shape.length
                (validate_int_or_int_tuple_arg axis)))))
          epsilon,
         kernel.shape, kernel.dtype⟩,
       s ++ [Effect.enterScope (name.getD "weight_norm")]) := by
  rfl

/-- C9: when a `scale` tensor is supplied (with `use_scale = True`), it is
validated against the `ParamSpec` built from the kernel's static shape and
base dtype before any scope is entered or variable created: on a shape or
dtype mismatch the call fails with the validation error and the graph state
is returned unchanged. -/
theorem weight_norm_scale_validated_before_scope
    (kernel : Tensor) (axis : Int ⊕ List Int) (sc : Tensor)
    (trainable : Bool) (epsilon : ℚ) (name : Option String)
    (s : GraphState)
    (h : ¬ (sc.shape = kernel.shape ∧ sc.dtype = kernel.dtype)) :
    weight_norm kernel axis true (some sc) trainable epsilon name s =
      (Except.error "tensor does not match the parameter specification",
       s) := by
  simp only [weight_norm, ParamSpec.validate, Bool.not_true,
    Bool.false_and, Bool.false_eq_true, if_false, if_neg h]
  rfl

/-- C9 witness: a scale whose last dimension disagrees with the kernel's is
rejected with the graph state untouched. -/
theorem weight_norm_scale_validated_before_scope_inst :
    (¬ (([3, 5] : List Nat) = [3, 4] ∧ DType.float32 = DType.float32)) ∧
    weight_norm ⟨TExpr.input "kernel", [3, 4], DType.float32⟩
      (Sum.inl (-1)) true (some ⟨TExpr.input "scale", [3, 5], DType.float32⟩)
      true (1 / 1000000000000) none [] =
      (Except.error "tensor does not match the parameter specification",
       []) := by
  refine ⟨by decide, ?_⟩
  exact weight_norm_scale_validated_before_scope
    ⟨TExpr.input "kernel", [3, 4], DType.float32⟩ (Sum.inl (-1))
    ⟨TExpr.input "scale", [3, 5], DType.float32⟩ true (1 / 1000000000000)
    none [] (by decide)

/-- C10: whenever `gaussian_mixture_prior` returns without raising, exactly
one of the `std` and `logstd` arguments of the returned `Normal` is
non-`None`; the `'one'`, `'softplus_logstd'` and `'unbound_logstd'` modes
supply only `logstd`, while `'one_plus_softplus_std'` supplies only `std`,
of the form `1 + softplus(e)` — which is strictly greater than `1` since
`softplus(x) = log(1 + exp(x)) > 0` for every real `x`. -/
theorem gm_prior_exactly_one_std_argument
    (cfg : String) (y : TExpr) (zd nc : Nat) (s : GraphState) (d : NormalD)
    (h : (gaussian_mixture_prior cfg y zd nc s).1 = Except.ok d) :
    ((d.std = none ∧ d.logstd ≠ none) ∨ (d.std ≠ none ∧ d.logstd = none)) ∧
    ((cfg = "one" ∨ cfg = "softplus_logstd" ∨ cfg = "unbound_logstd") →
      d.std = none ∧ d.logstd ≠ none) ∧
    (cfg = "one_plus_softplus_std" →
      d.logstd = none ∧
      (∃ e, d.std =
        some (TExpr.add (TExpr.const 1) (TExpr.softplus e))) ∧
      (∀ x : ℝ, 1 < 1 + Real.log (1 + Real.exp x))) := by
  have hgt : ∀ x : ℝ, 1 < 1 + Real.log (1 + Real.exp x) := by
    intro x
    have hp : 0 < Real.log (1 + Real.exp x) :=
      Real.log_pos (by linarith [Real.exp_pos x])
    linarith
  by_cases h1 : cfg = "one"
  · subst h1
    rw [gmp_one_eq] at h
    obtain rfl : _ = d := by simpa using h
    exact ⟨Or.inl ⟨rfl, by simp⟩, fun _ => ⟨rfl, by simp⟩, by simp⟩
  by_cases h2 : cfg = "one_plus_softplus_std"
  · subst h2
    rw [gmp_opss_eq] at h
    obtain rfl : _ = d := by simpa using h
    refine ⟨Or.inr ⟨by simp, rfl⟩, by simp, fun _ => ⟨rfl, ⟨_, rfl⟩, hgt⟩⟩
  by_cases h3 : cfg = "softplus_logstd"
  · subst h3
    rw [gmp_spl_eq] at h
    obtain rfl : _ = d := by simpa using h
    exact ⟨Or.inl ⟨rfl, by simp⟩, fun _ => ⟨rfl, by simp⟩, by simp⟩
  by_cases h4 : cfg = "unbound_logstd"
  · subst h4
    rw [gmp_ul_eq] at h
    obtain rfl : _ = d := by simpa using h
    exact ⟨Or.inl ⟨rfl, by simp⟩, fun _ => ⟨rfl, by simp⟩, by simp⟩
  · have hmem : cfg ∉ supported_p_z_given_y_std := by
      rw [mem_supported_iff]
      push_neg
      exact ⟨h1, h2, h3, h4⟩
    rw [gmp_unsupported_eq cfg hmem y zd nc s] at h
    exact absurd h (by simp)

/-- C10 witness: the `'one_plus_softplus_std'` conclusion at a concrete
two-cluster, three-dimensional prior. -/
theorem gm_prior_exactly_one_std_argument_inst :
    (NormalD.mk
      (TExpr.embLookup (TExpr.var "z_prior_mean" [2, 3]) (TExpr.input "y"))
      (some (TExpr.add (TExpr.const 1) (TExpr.softplus
        (TExpr.embLookup (TExpr.var "z_prior_std_or_logstd" [2, 3])
          (TExpr.input "y")))))
      none).logstd = none ∧
    (∃ e, (NormalD.mk
      (TExpr.embLookup (TExpr.var "z_prior_mean" [2, 3]) (TExpr.input "y"))
      (some (TExpr.add (TExpr.const 1) (TExpr.softplus
        (TExpr.embLookup (TExpr.var "z_prior_std_or_logstd" [2, 3])
          (TExpr.input "y")))))
      none).std =
        some (TExpr.add (TExpr.const 1) (TExpr.softplus e))) ∧
    (∀ x : ℝ, 1 < 1 + Real.log (1 + Real.exp x)) :=
  (gm_prior_exactly_one_std_argument "one_plus_softplus_std"
    (TExpr.input "y") 3 2 [] _ rfl).2.2 rfl
